import Mathlib

/-
Verification development for the raymarching shader-generation library
(src/raymarching/raymarching.py).

The Python module builds a tree of signed-distance-field (SDF) nodes and
emits GLSL source text.  The embedding below translates the pure core of
that module:

* `to_glsl_vec` mirrors the module-level conversion function; a Python
  value is modelled by `PyVal` (a string, an iterable of already
  stringified elements, or a non-string non-iterable object carrying its
  textual representation), and a Python `ValueError` by `Except.error`.
* The class `SDF` becomes the structure `SDF`; the process-wide list
  `SDF.__generated_sdfs` becomes an explicit registry value of type
  `List SDF` threaded through the constructors (`register`, `mk...`).
  Children of operator nodes are referenced by their integer id, exactly
  the information the generated text depends on.
* Methods (`sdist`, `declaration`, `initialisation`, `translated`,
  `rotated`, `rotated_quaternion`, `scaled`, `glsl_struct_name`) become
  functions on `SDF`.  `initialisation` recurses into children through
  the registry; the recursion is bounded by explicit fuel (in the Python
  code children always have strictly smaller ids, so any fuel larger
  than the registry length is enough).
* `Scene.process` reads a template file and prints; `Scene.processCore`
  models its pure core: root resolution, the declarations block and the
  final `sdScene` return statement.
-/

/-- Model of the Python argument passed where a GLSL vector is expected:
a pre-formatted string, an iterable whose elements are given by their
`str()` images, or any other (non-string, non-iterable) object given by
its textual representation. -/
inductive PyVal where
  | str (s : String)
  | iter (elems : List String)
  | other (pyrepr : String)
deriving DecidableEq

/-- Translation of `to_glsl_vec(vec, n)` (raymarching.py lines 12-23).
A raised `ValueError` is modelled as `Except.error` carrying the message. -/
def to_glsl_vec (vec : PyVal) (n : Int) : Except String String :=
  if n < 2 ∨ n > 4 then
    .error ("Bad GLSL vector dimension " ++ toString n ++ ". GLSL supports only 2, 3 and 4.")
  else
    match vec with
    | .str s => .ok s
    | .iter elems =>
        .ok ((elems.foldl (fun answer i => answer ++ i ++ ", ")
              ("vec" ++ toString n ++ "(")).dropRight 2 ++ ")")
    | .other r => .error ("Cannot convert \x27" ++ r ++ "\x27 to GLSL\x27s vec" ++ toString n)

/-- The kind of a concrete `SDF` subclass.  Operator kinds carry the
combining function name (`self.func`) and the ids of `self.objects`. -/
inductive SDFKind where
  | emptiness
  | sphere
  | plane
  | aabbox
  | cylinder
  | operator (func : String) (objectIds : List Nat)
  | smoothUnion (func : String) (objectIds : List Nat)
  | difference
deriving DecidableEq

/-- A value in the `parameters` dict: either a `(type, value)` pair of
strings or a reference to a child node (stored by id). -/
inductive ParamVal where
  | lit (ty : String) (value : String)
  | child (cid : Nat)
deriving DecidableEq

/-- Translation of the class `SDF` (its per-instance state).  `parameters`
models the Python dict: an insertion-ordered association list with unique
keys. -/
structure SDF where
  id : Nat
  kind : SDFKind
  parameters : List (String × ParamVal)
  translation : Option String
  rotation : Option String
  scale : String
deriving DecidableEq

/-- Python dict update `d |= {k: v}` for one key: replaces the value in
place if the key is present, otherwise appends the binding. -/
def dictInsert (d : List (String × ParamVal)) (k : String) (v : ParamVal) :
    List (String × ParamVal) :=
  if d.any (fun p => p.1 == k) then d.map (fun p => if p.1 == k then (k, v) else p)
  else d ++ [(k, v)]

/-- Python dict lookup `d[k]` (as an `Option`). -/
def dictGet (d : List (String × ParamVal)) (k : String) : Option ParamVal :=
  (d.find? (fun p => p.1 == k)).map Prod.snd

/-- Lexicographic comparison of character lists by code point, the order
Python uses on strings. -/
def charListLt : List Char → List Char → Bool
  | [], [] => false
  | [], _ :: _ => true
  | _ :: _, [] => false
  | c :: cs, d :: ds =>
      if c.val < d.val then true
      else if d.val < c.val then false
      else charListLt cs ds

/-- String comparison used by `pySorted` (Python's `<` on strings). -/
def strLt (a b : String) : Bool := charListLt a.data b.data

/-- Insertion step for `pySorted`. -/
def pyInsert (s : String) : List String → List String
  | [] => [s]
  | x :: xs => if strLt x s then x :: pyInsert s xs else s :: x :: xs

/-- Python's `sorted` on a list of strings (lexicographic order). -/
def pySorted (l : List String) : List String := l.foldr pyInsert []

/-- Translation of `SDF.glsl_struct_name` (lines 53-55). -/
def SDF.glsl_struct_name (n : SDF) : String := "SDF" ++ toString n.id

/-- One loop iteration of the operator `sdist` methods:
`answer += f"sdist(p, o.o{o.id}), {self.func}("`. -/
def opChainPiece (func : String) (i : Nat) : String :=
  "sdist(p, o.o" ++ toString i ++ "), " ++ func ++ "("

/-- Common shape of `SDFOperator.sdist` (lines 169-174) and
`SmoothUnion.sdist` (lines 194-199), which differ only in the string
repeated `len(objects) - 1` times at the end (`")"` resp. `", o.k)"`).
`objects[:-2]` is `ids.dropLast.dropLast`; `objects[-2]`/`objects[-1]`
are the elements at indices `length - 2` and `length - 1` (the Python
code raises `IndexError` for fewer than two children; all claims assume
at least two, where the `getD` defaults are never used). -/
def foldSdist (func close : String) (ids : List Nat) : String :=
  (ids.dropLast.dropLast).foldl (fun answer o => answer ++ opChainPiece func o)
      ("return " ++ func ++ "(")
    ++ "sdist(p, o.o" ++ toString (ids.getD (ids.length - 2) 0) ++ "), sdist(p, o.o"
    ++ toString (ids.getD (ids.length - 1) 0) ++ ")"
    ++ String.join (List.replicate (ids.length - 1) close) ++ ";"

/-- Translation of the `sdist` overrides of every concrete subclass,
dispatched on the node's kind. -/
def SDF.sdist (n : SDF) : String :=
  match n.kind with
  | .emptiness => "return INF;"
  | .sphere => "return length(p) - 1.0;"
  | .plane => "return abs(p.y);"
  | .aabbox => "vec3 d = abs(p) - o.r; return min(max(d.x, max(d.y, d.z)), 0.0) + length(max(d, 0.0));"
  | .cylinder => "vec2 d = vec2(length(p.xz) - o.radius, abs(p.y) - o.height2); \n                  return min(max(d.x, d.y), 0.0) + length(max(d, 0.0));"
  | .operator func ids => foldSdist func ")" ids
  | .smoothUnion func ids => foldSdist func ", o.k)" ids
  | .difference => "return max(sdist(p, o.o1), -sdist(p, o.o2));"

/-- The parameter iteration order used by `declaration` (line 65):
`sorted(self.parameters)`. -/
def SDF.declarationParamOrder (n : SDF) : List String :=
  pySorted (n.parameters.map Prod.fst)

/-- The parameter iteration order used by `initialisation` (line 73):
`sorted(self.parameters)`. -/
def SDF.initialisationParamOrder (n : SDF) : List String :=
  pySorted (n.parameters.map Prod.fst)

/-- `self.parameters[param][0]`: the declared type of a parameter.  For a
child node Python calls `SDF.__getitem__(0)`, i.e. `glsl_struct_name`. -/
def paramTypeText : ParamVal → String
  | .lit ty _ => ty
  | .child cid => "SDF" ++ toString cid

/-- Python f-string interpolation of an `Optional[str]` field. -/
def optStr : Option String → String
  | none => "None"
  | some s => s

/-- Translation of `SDF.declaration` (lines 61-67).  Literal brace
characters of the emitted GLSL text are written with `\x7b`/`\x7d`
escapes. -/
def SDF.declaration (n : SDF) : String :=
  "SDFType(" ++ n.glsl_struct_name ++ ",\n\x7b\n"
  ++ String.join (n.declarationParamOrder.map (fun param =>
      (match dictGet n.parameters param with
       | some v => paramTypeText v
       | none => "") ++ " " ++ param ++ ";\n"))
  ++ "Transform t;\n\x7d,\n\x7b\n" ++ n.sdist ++ "\n\x7d)"

/-- Translation of `SDF.initialisation` (lines 69-74).
`self.parameters[param][1]` is the literal value for a pair and the
child's own `initialisation()` for a child reference (Python
`SDF.__getitem__(1)`); the child is found in the registry by its id and
the recursion is bounded by fuel. -/
def SDF.initialisation (reg : List SDF) : Nat → SDF → String
  | 0, _ => ""
  | fuel + 1, n =>
    n.glsl_struct_name ++ "("
    ++ String.join (n.initialisationParamOrder.map (fun param =>
        (match dictGet n.parameters param with
         | some (.lit _ value) => value
         | some (.child cid) =>
            match reg.find? (fun m => m.id == cid) with
            | some c => SDF.initialisation reg fuel c
            | none => ""
         | none => "") ++ ", "))
    ++ "Transform(" ++ optStr n.rotation ++ ", " ++ optStr n.translation ++ ", "
    ++ n.scale ++ "))"

/-- The state `SDF.__init__` (lines 35-43) gives a new node: the id is
the current registry length, the default transform strings are set, and
the concrete subclass then fills `parameters`. -/
def defaultNode (i : Nat) (kind : SDFKind) (params : List (String × ParamVal)) : SDF :=
  { id := i, kind := kind, parameters := params,
    translation := some "vec3(0, 0, 0)", rotation := some "vec4(0, 0, 0, 1)",
    scale := "1" }

/-- Registration performed by `SDF.__init__`: the node receives
`len(__generated_sdfs)` as id and is appended to the registry. -/
def register (st : List SDF) (mk : Nat → SDF) : List SDF × SDF :=
  (st ++ [mk st.length], mk st.length)

/-- Constructor of `Emptiness` (lines 125-127). -/
def mkEmptiness (st : List SDF) : List SDF × SDF :=
  register st (fun i => defaultNode i .emptiness [])

/-- Constructor of `Sphere` (lines 130-132). -/
def mkSphere (st : List SDF) : List SDF × SDF :=
  register st (fun i => defaultNode i .sphere [])

/-- Constructor of `Plane` (lines 144-146). -/
def mkPlane (st : List SDF) : List SDF × SDF :=
  register st (fun i => defaultNode i .plane [])

/-- Constructor of `AABBox` (lines 135-138).  Python registers the node
in `super().__init__()` before `to_glsl_vec` may raise, so on error the
node is registered with empty parameters and the error propagates. -/
def mkAABBox (st : List SDF) (r : PyVal) : List SDF × Except String SDF :=
  match to_glsl_vec r 3 with
  | .ok v =>
    let res := register st (fun i => defaultNode i .aabbox [("r", .lit "vec3" v)])
    (res.1, .ok res.2)
  | .error e =>
    ((register st (fun i => defaultNode i .aabbox [])).1, .error e)

/-- Constructor of `Cylinder` (lines 149-155); `str(radius)` and
`str(height2)` are taken as the given strings. -/
def mkCylinder (st : List SDF) (radius height2 : String) : List SDF × SDF :=
  register st (fun i => defaultNode i .cylinder
    [("radius", .lit "float" radius), ("height2", .lit "float" height2)])

/-- `self.parameters |= {f"o{sdf.id}": sdf for sdf in args}` (line 166):
each child is keyed by the name derived from its id. -/
def childParams (args : List SDF) : List (String × ParamVal) :=
  args.foldl (fun d a => dictInsert d ("o" ++ toString a.id) (.child a.id)) []

/-- Constructor of `SDFOperator` (lines 162-167). -/
def mkSDFOperator (st : List SDF) (func : String) (args : List SDF) : List SDF × SDF :=
  register st (fun i => defaultNode i (.operator func (args.map SDF.id)) (childParams args))

/-- Constructor of `Union` (lines 182-184). -/
def mkUnion (st : List SDF) (args : List SDF) : List SDF × SDF :=
  mkSDFOperator st "min" args

/-- Constructor of `Intersection` (lines 177-179). -/
def mkIntersection (st : List SDF) (args : List SDF) : List SDF × SDF :=
  mkSDFOperator st "max" args

/-- Constructor of `SmoothUnion` (lines 187-192): the generic operator
construction with function `smin`, then `parameters |= {"k": ("float", str(k))}`. -/
def mkSmoothUnion (st : List SDF) (k : String) (args : List SDF) : List SDF × SDF :=
  register st (fun i =>
    defaultNode i (.smoothUnion "smin" (args.map SDF.id))
      (dictInsert (childParams args) "k" (.lit "float" k)))

/-- Constructor of `Difference` (lines 202-208):
`parameters |= {"o1": o1, "o2": o2}` with the fixed keys `o1`, `o2`. -/
def mkDifference (st : List SDF) (o1 o2 : SDF) : List SDF × SDF :=
  register st (fun i =>
    defaultNode i .difference
      (dictInsert (dictInsert [] "o1" (.child o1.id)) "o2" (.child o2.id)))

/-- Translation of `SDF.translated` (lines 76-82). -/
def SDF.translated (n : SDF) (tr : PyVal) : Except String SDF :=
  match n.translation with
  | none => (to_glsl_vec tr 3).map (fun v => { n with translation := some v })
  | some t =>
      (to_glsl_vec tr 3).map (fun v =>
        { n with translation := some ("(" ++ t ++ " + " ++ v ++ ")") })

/-- Translation of `SDF.rotated_quaternion` (lines 88-92): the stored
rotation is replaced by the conversion of the argument. -/
def SDF.rotated_quaternion (n : SDF) (q : PyVal) : Except String SDF :=
  (to_glsl_vec q 4).map (fun v => { n with rotation := some v })

/-- Translation of `SDF.rotated` (lines 84-86), which builds a quaternion
expression string and delegates to `rotated_quaternion`. -/
def SDF.rotated (n : SDF) (u : PyVal) (angle : String) : Except String SDF :=
  match to_glsl_vec u 3 with
  | .error e => .error e
  | .ok uv =>
      n.rotated_quaternion
        (.str ("vec4(" ++ uv ++ " * cos((" ++ angle ++ ") / 2), sin((" ++ angle ++ ") / 2))"))

/-- Translation of `SDF.scaled` (lines 94-97). -/
def SDF.scaled (n : SDF) (k : String) : SDF :=
  { n with scale := "(" ++ n.scale ++ " * (" ++ k ++ "))" }

/-- Pure core of `Scene.process` (lines 111-116): resolve the root
(constructing a fresh `Emptiness` when unset), build the declarations
block and the final return statement.  The subsequent merge into the
template file (lines 117-122) is I/O and outside this model.  Result:
(registry after resolution, resolved root, declarations block, final
statement). -/
def Scene.processCore (st : List SDF) (sceneSdf : Option SDF) :
    List SDF × SDF × String × String :=
  let resolved := match sceneSdf with
    | none => mkEmptiness st
    | some s => (st, s)
  let sdf_types := String.join (resolved.1.map (fun sdf => sdf.declaration ++ ";\n"))
  let sdscene :=
    "return sdist(p, " ++ SDF.initialisation resolved.1 (resolved.1.length + 1) resolved.2 ++ ");"
  (resolved.1, resolved.2, sdf_types, sdscene)

/-- A construction command of one generation run; operator arguments
refer to previously constructed nodes by their position in the registry. -/
inductive BuildCmd where
  | emptiness
  | sphere
  | plane
  | aabbox (r : PyVal)
  | cylinder (radius height2 : String)
  | union (argIdx : List Nat)
  | intersection (argIdx : List Nat)
  | smoothUnion (k : String) (argIdx : List Nat)
  | difference (a b : Nat)
deriving DecidableEq

/-- Execute one construction on the registry (the Python side effect of
calling the corresponding class).  Operator arguments are the registry
entries at the given positions. -/
def applyCmd (st : List SDF) : BuildCmd → List SDF
  | .emptiness => (mkEmptiness st).1
  | .sphere => (mkSphere st).1
  | .plane => (mkPlane st).1
  | .aabbox r => (mkAABBox st r).1
  | .cylinder radius height2 => (mkCylinder st radius height2).1
  | .union idxs => (mkUnion st (idxs.filterMap st.get?)).1
  | .intersection idxs => (mkIntersection st (idxs.filterMap st.get?)).1
  | .smoothUnion k idxs => (mkSmoothUnion st k (idxs.filterMap st.get?)).1
  | .difference a b =>
      (mkDifference st (st.getD a (defaultNode 0 .sphere []))
        (st.getD b (defaultNode 0 .sphere []))).1

/-- One generation run: execute the commands starting from the empty
registry (`SDF.__generated_sdfs = []`). -/
def runBuild (cmds : List BuildCmd) : List SDF := cmds.foldl applyCmd []

/-- Modelled from the spec: the nested right-associative fold expression
`f(d0, f(d1, ... f(d(n-2), d(n-1))...))` over child ids, where every
level is closed by the same string `close`.  Used to state what shape
the generated operator bodies actually have. -/
def nestedFoldExpr (func close : String) : List Nat → String
  | [] => ""
  | [_] => ""
  | [x, y] =>
      func ++ "(sdist(p, o.o" ++ toString x ++ "), sdist(p, o.o" ++ toString y ++ ")" ++ close
  | x :: rest =>
      func ++ "(sdist(p, o.o" ++ toString x ++ "), " ++ nestedFoldExpr func close rest ++ close

/-- Modelled from the spec: GLSL `vec3` constant and addition
expressions, used to state that accumulated translation expressions are
equivalent to the sum of the deltas. -/
inductive Vec3Expr where
  | lit (x y z : Int)
  | add (a b : Vec3Expr)
deriving DecidableEq

/-- Render a `Vec3Expr` as GLSL text; `add` renders exactly like the
string built by `SDF.translated`. -/
def Vec3Expr.render : Vec3Expr → String
  | .lit x y z => "vec3(" ++ toString x ++ ", " ++ toString y ++ ", " ++ toString z ++ ")"
  | .add a b => "(" ++ a.render ++ " + " ++ b.render ++ ")"

/-- Componentwise addition of integer triples. -/
def v3add (a b : Int × Int × Int) : Int × Int × Int :=
  (a.1 + b.1, a.2.1 + b.2.1, a.2.2 + b.2.2)

/-- The componentwise meaning of a `Vec3Expr`. -/
def Vec3Expr.denote : Vec3Expr → Int × Int × Int
  | .lit x y z => (x, y, z)
  | .add a b => v3add a.denote b.denote

/-! ## Helper lemmas about strings, joins and folds -/

lemma strJoin_nil : String.join ([] : List String) = "" := rfl

lemma strJoin_cons (a : String) (l : List String) :
    String.join (a :: l) = a ++ String.join l := by
  apply String.ext
  simp [String.join_eq, String.data_append]

lemma strJoin_append (l₁ l₂ : List String) :
    String.join (l₁ ++ l₂) = String.join l₁ ++ String.join l₂ := by
  apply String.ext
  simp [String.join_eq, String.data_append]

lemma foldl_append_join (g : Nat → String) :
    ∀ (L : List Nat) (s : String),
      L.foldl (fun a i => a ++ g i) s = s ++ String.join (L.map g)
  | [], s => by simp [strJoin_nil, String.append_empty]
  | x :: L, s => by
      rw [List.foldl_cons, foldl_append_join g L (s ++ g x), List.map_cons, strJoin_cons,
        String.append_assoc]

lemma getD_concat_two_left (x y : Nat) (L : List Nat) :
    (L ++ [x, y]).getD L.length 0 = x := by
  rw [List.getD_append_right _ _ _ _ (le_refl _)]
  simp [List.getD]

lemma getD_concat_two_right (x y : Nat) (L : List Nat) :
    (L ++ [x, y]).getD (L.length + 1) 0 = y := by
  rw [List.getD_append_right _ _ _ _ (Nat.le_succ _)]
  simp [List.getD]

lemma dropLast_concat_two (x y : Nat) (L : List Nat) :
    (L ++ [x, y]).dropLast.dropLast = L := by
  have h : L ++ [x, y] = (L ++ [x]) ++ [y] := by simp
  rw [h, List.dropLast_concat, List.dropLast_concat]

lemma exists_concat_two :
    ∀ (ids : List Nat), 2 ≤ ids.length → ∃ L x y, ids = L ++ [x, y]
  | [], h => by simp at h
  | [a], h => by simp at h
  | [a, b], _ => ⟨[], a, b, rfl⟩
  | a :: b :: c :: rest, _ => by
      obtain ⟨L, x, y, h⟩ := exists_concat_two (b :: c :: rest) (by simp)
      exact ⟨a :: L, x, y, by rw [List.cons_append, ← h]⟩

lemma parenSdistMerge (s : String) :
    ("(" : String) ++ ("sdist(p, o.o" ++ s) = "(sdist(p, o.o" ++ s := by
  rw [← String.append_assoc]
  exact congrArg (fun t => t ++ s) (by rfl)

lemma nestedFoldExpr_cons_ge2 (func close : String) (a : Nat) (rest : List Nat)
    (h : 2 ≤ rest.length) :
    nestedFoldExpr func close (a :: rest)
      = func ++ "(sdist(p, o.o" ++ toString a ++ "), "
        ++ nestedFoldExpr func close rest ++ close := by
  match rest, h with
  | y :: z :: rs, _ => rfl

lemma nestedFoldExpr_concat (func close : String) (x y : Nat) :
    ∀ L : List Nat,
      nestedFoldExpr func close (L ++ [x, y])
        = func ++ "(" ++ String.join (L.map (opChainPiece func))
          ++ "sdist(p, o.o" ++ toString x ++ "), sdist(p, o.o" ++ toString y ++ ")"
          ++ String.join (List.replicate (L.length + 1) close)
  | [] => by
      simp [nestedFoldExpr, strJoin_nil, strJoin_cons, String.append_empty,
        String.append_assoc, parenSdistMerge]
  | a :: L => by
      rw [List.cons_append,
        nestedFoldExpr_cons_ge2 func close a (L ++ [x, y]) (by simp),
        nestedFoldExpr_concat func close x y L]
      simp [List.map_cons, strJoin_cons, List.replicate_succ', strJoin_append,
        opChainPiece, strJoin_nil, String.append_empty, String.empty_append,
        String.append_assoc, parenSdistMerge]

lemma foldSdist_eq_nested (func close : String) (ids : List Nat) (h : 2 ≤ ids.length) :
    foldSdist func close ids = "return " ++ nestedFoldExpr func close ids ++ ";" := by
  obtain ⟨L, x, y, rfl⟩ := exists_concat_two ids h
  rw [nestedFoldExpr_concat]
  unfold foldSdist
  rw [foldl_append_join (opChainPiece func), dropLast_concat_two]
  have hlen : (L ++ [x, y]).length = L.length + 2 := by simp
  rw [hlen]
  have h2 : L.length + 2 - 2 = L.length := by omega
  have h1 : L.length + 2 - 1 = L.length + 1 := by omega
  rw [h2, h1, getD_concat_two_left, getD_concat_two_right]
  simp [String.append_assoc, parenSdistMerge]

lemma find?_dictInsert (k : String) (v : ParamVal) :
    ∀ d : List (String × ParamVal),
      (dictInsert d k v).find? (fun p => p.1 == k) = some (k, v)
  | [] => by simp [dictInsert]
  | a :: d => by
      rcases hb : (a.1 == k) with _ | _
      · rcases hd : (d.any fun p => p.1 == k) with _ | _
        · have hany : ((a :: d).any fun p => p.1 == k) = false := by
            simp [List.any_cons, hb, hd]
          have ih := find?_dictInsert k v d
          rw [dictInsert, if_neg (by simp [hd])] at ih
          rw [dictInsert, if_neg (by simp [hany]), List.cons_append,
            List.find?_cons_of_neg _ (by simp [hb]), ih]
        · have hany : ((a :: d).any fun p => p.1 == k) = true := by
            simp [List.any_cons, hd]
          have ih := find?_dictInsert k v d
          rw [dictInsert, if_pos hd] at ih
          rw [dictInsert, if_pos hany, List.map_cons,
            List.find?_cons_of_neg _ (by simp [hb]), ih]
      · have hany : ((a :: d).any fun p => p.1 == k) = true := by
          simp [List.any_cons, hb]
        rw [dictInsert, if_pos hany, List.map_cons,
          List.find?_cons_of_pos _ (by simp [hb])]
        simp [hb]

lemma dictGet_dictInsert (d : List (String × ParamVal)) (k : String) (v : ParamVal) :
    dictGet (dictInsert d k v) k = some v := by
  rw [dictGet, find?_dictInsert]
  rfl

/-! ## Registry helper lemmas -/

lemma applyCmd_shape (st : List SDF) (c : BuildCmd) :
    ∃ n : SDF, applyCmd st c = st ++ [n] ∧ n.id = st.length := by
  cases c with
  | emptiness => exact ⟨_, rfl, rfl⟩
  | sphere => exact ⟨_, rfl, rfl⟩
  | plane => exact ⟨_, rfl, rfl⟩
  | cylinder radius height2 => exact ⟨_, rfl, rfl⟩
  | union idxs => exact ⟨_, rfl, rfl⟩
  | intersection idxs => exact ⟨_, rfl, rfl⟩
  | smoothUnion k idxs => exact ⟨_, rfl, rfl⟩
  | difference a b => exact ⟨_, rfl, rfl⟩
  | aabbox r =>
      cases h : to_glsl_vec r 3 with
      | ok v =>
          refine ⟨defaultNode st.length .aabbox [("r", .lit "vec3" v)], ?_, rfl⟩
          simp [applyCmd, mkAABBox, h, register]
      | error e =>
          refine ⟨defaultNode st.length .aabbox [], ?_, rfl⟩
          simp [applyCmd, mkAABBox, h, register]

lemma registry_id_step (st : List SDF) (n : SDF) (hn : n.id = st.length)
    (hst : ∀ i (h : i < st.length), (st.get ⟨i, h⟩).id = i) :
    ∀ i (h : i < (st ++ [n]).length), ((st ++ [n]).get ⟨i, h⟩).id = i := by
  intro i h
  rcases Nat.lt_or_ge i st.length with hlt | hge
  · rw [List.get_eq_getElem, List.getElem_append_left hlt]
    have := hst i hlt
    rwa [List.get_eq_getElem] at this
  · have hi : i = st.length := by
      have hlen : i < st.length + 1 := by simpa using h
      omega
    subst hi
    rw [List.get_eq_getElem, List.getElem_append_right (le_refl _)]
    simpa using hn

lemma foldl_applyCmd_invariant :
    ∀ (cmds : List BuildCmd) (st : List SDF),
      (∀ i (h : i < st.length), (st.get ⟨i, h⟩).id = i) →
      ∀ i (h : i < (cmds.foldl applyCmd st).length),
        ((cmds.foldl applyCmd st).get ⟨i, h⟩).id = i
  | [], _, hst => hst
  | c :: cmds, st, hst => by
      rw [List.foldl_cons]
      obtain ⟨n, hn, hid⟩ := applyCmd_shape st c
      rw [hn]
      exact foldl_applyCmd_invariant cmds _ (registry_id_step st n hid hst)

lemma translated_id (n : SDF) (tr : PyVal) (m : SDF) (h : n.translated tr = .ok m) :
    m.id = n.id := by
  unfold SDF.translated at h
  cases ht : n.translation with
  | none =>
      rw [ht] at h
      cases hv : to_glsl_vec tr 3 with
      | ok v => rw [hv] at h; simp [Except.map] at h; rw [← h]
      | error e => rw [hv] at h; simp [Except.map] at h
  | some t =>
      rw [ht] at h
      cases hv : to_glsl_vec tr 3 with
      | ok v => rw [hv] at h; simp [Except.map] at h; rw [← h]
      | error e => rw [hv] at h; simp [Except.map] at h

lemma rotated_quaternion_id (n : SDF) (q : PyVal) (m : SDF)
    (h : n.rotated_quaternion q = .ok m) : m.id = n.id := by
  unfold SDF.rotated_quaternion at h
  cases hv : to_glsl_vec q 4 with
  | ok v => rw [hv] at h; simp [Except.map] at h; rw [← h]
  | error e => rw [hv] at h; simp [Except.map] at h

lemma rotated_id (n : SDF) (u : PyVal) (angle : String) (m : SDF)
    (h : n.rotated u angle = .ok m) : m.id = n.id := by
  unfold SDF.rotated at h
  cases hv : to_glsl_vec u 3 with
  | ok v => rw [hv] at h; exact rotated_quaternion_id n _ m h
  | error e => rw [hv] at h; simp at h

/-! ## Claim theorems -/

/-- C1 (counterexample): the fold generated by `Union(A, B, C).sdist()` is
not the left-associative `min(min(d0, d1), d2)` the claim states.  With
three spheres (ids 0, 1, 2) the code emits the right-associative
`return min(sdist(p, o.o0), min(sdist(p, o.o1), sdist(p, o.o2)));`,
which differs from the claimed text both with and without the claimed
spacing. -/
theorem c1_counterexample :
    SDF.sdist (mkUnion (runBuild [BuildCmd.sphere, BuildCmd.sphere, BuildCmd.sphere])
        (runBuild [BuildCmd.sphere, BuildCmd.sphere, BuildCmd.sphere])).2
      = "return min(sdist(p, o.o0), min(sdist(p, o.o1), sdist(p, o.o2)));"
    ∧ SDF.sdist (mkUnion (runBuild [BuildCmd.sphere, BuildCmd.sphere, BuildCmd.sphere])
        (runBuild [BuildCmd.sphere, BuildCmd.sphere, BuildCmd.sphere])).2
      ≠ "return min(min(sdist(p,o.o0), sdist(p,o.o1)), sdist(p,o.o2));"
    ∧ SDF.sdist (mkUnion (runBuild [BuildCmd.sphere, BuildCmd.sphere, BuildCmd.sphere])
        (runBuild [BuildCmd.sphere, BuildCmd.sphere, BuildCmd.sphere])).2
      ≠ "return min(min(sdist(p, o.o0), sdist(p, o.o1)), sdist(p, o.o2));" := by
  refine ⟨rfl, ?_, ?_⟩ <;> decide

/-- C1 (amended): for every Union or Intersection node with at least two
children, `sdist()` is the strictly right-associative fold
`f(d0, f(d1, ... f(d(n-2), d(n-1))...))` over the children in the order
supplied, each distance call written `sdist(p, o.oN)` (with a space after
each comma) where `N` is the child's id; Union uses `min` and
Intersection uses `max`. -/
theorem c1_amended (st : List SDF) (args : List SDF) (h : 2 ≤ args.length) :
    SDF.sdist (mkUnion st args).2
      = "return " ++ nestedFoldExpr "min" ")" (args.map SDF.id) ++ ";"
    ∧ SDF.sdist (mkIntersection st args).2
      = "return " ++ nestedFoldExpr "max" ")" (args.map SDF.id) ++ ";" := by
  constructor
  · show foldSdist "min" ")" (args.map SDF.id) = _
    exact foldSdist_eq_nested _ _ _ (by simpa using h)
  · show foldSdist "max" ")" (args.map SDF.id) = _
    exact foldSdist_eq_nested _ _ _ (by simpa using h)

theorem c1_witness :
    SDF.sdist (mkUnion (runBuild [BuildCmd.sphere, BuildCmd.sphere, BuildCmd.sphere])
        (runBuild [BuildCmd.sphere, BuildCmd.sphere, BuildCmd.sphere])).2
      = "return " ++ nestedFoldExpr "min" ")"
          ((runBuild [BuildCmd.sphere, BuildCmd.sphere, BuildCmd.sphere]).map SDF.id) ++ ";" :=
  (c1_amended (runBuild [BuildCmd.sphere, BuildCmd.sphere, BuildCmd.sphere])
    (runBuild [BuildCmd.sphere, BuildCmd.sphere, BuildCmd.sphere]) (by decide)).1

/-- C2 (counterexample): the parameter keys of a `Difference` node are
not derived from the children's ids.  With two spheres of ids 0 and 1
the node's keys are the fixed `o1`, `o2` (id-derived keys would be
`o0`, `o1`), and the emitted body references `o.o1`/`o.o2`, not the
claimed id-derived names nor the claimed space-free text. -/
theorem c2_counterexample :
    (((runBuild [BuildCmd.sphere, BuildCmd.sphere, BuildCmd.difference 0 1]).getD 2
        (defaultNode 0 .sphere [])).parameters.map Prod.fst = ["o1", "o2"])
    ∧ ((runBuild [BuildCmd.sphere, BuildCmd.sphere, BuildCmd.difference 0 1]).getD 0
        (defaultNode 0 .sphere [])).id = 0
    ∧ ((runBuild [BuildCmd.sphere, BuildCmd.sphere, BuildCmd.difference 0 1]).getD 1
        (defaultNode 0 .sphere [])).id = 1
    ∧ (["o1", "o2"] : List String) ≠ ["o0", "o1"]
    ∧ SDF.sdist ((runBuild [BuildCmd.sphere, BuildCmd.sphere, BuildCmd.difference 0 1]).getD 2
        (defaultNode 0 .sphere []))
      = "return max(sdist(p, o.o1), -sdist(p, o.o2));"
    ∧ SDF.sdist ((runBuild [BuildCmd.sphere, BuildCmd.sphere, BuildCmd.difference 0 1]).getD 2
        (defaultNode 0 .sphere []))
      ≠ "return max(sdist(p,o.o1), -sdist(p,o.o2));"
    ∧ SDF.sdist ((runBuild [BuildCmd.sphere, BuildCmd.sphere, BuildCmd.difference 0 1]).getD 2
        (defaultNode 0 .sphere []))
      ≠ "return max(sdist(p, o.o0), -sdist(p, o.o1));" := by
  refine ⟨rfl, rfl, rfl, ?_, rfl, ?_, ?_⟩ <;> decide

/-- C2 (amended): for every `Difference(A, B)` node, `sdist()` equals
exactly `return max(sdist(p, o.o1), -sdist(p, o.o2));` and the node's
parameter keys are the fixed positional names `o1` and `o2`, independent
of the children's ids. -/
theorem c2_amended (st : List SDF) (o1 o2 : SDF) :
    ((mkDifference st o1 o2).2.parameters.map Prod.fst = ["o1", "o2"])
    ∧ SDF.sdist (mkDifference st o1 o2).2
        = "return max(sdist(p, o.o1), -sdist(p, o.o2));" :=
  ⟨rfl, rfl⟩

/-- C3: in every generation run the k-th constructed node (of any
concrete kind) has id k, so the registry satisfies
`registry[i].id == i`, and `glsl_struct_name()` returns `"SDF" + id`;
moreover every mutator (`translated`, `rotated`, `rotated_quaternion`,
`scaled`) leaves `glsl_struct_name` unchanged, so the name is stable for
the node's lifetime. -/
theorem c3_ids_and_names :
    (∀ (cmds : List BuildCmd) (i : Nat) (h : i < (runBuild cmds).length),
        ((runBuild cmds).get ⟨i, h⟩).id = i
        ∧ ((runBuild cmds).get ⟨i, h⟩).glsl_struct_name = "SDF" ++ toString i)
    ∧ (∀ (n : SDF) (tr : PyVal) (m : SDF), n.translated tr = .ok m →
          m.glsl_struct_name = n.glsl_struct_name)
    ∧ (∀ (n : SDF) (q : PyVal) (m : SDF), n.rotated_quaternion q = .ok m →
          m.glsl_struct_name = n.glsl_struct_name)
    ∧ (∀ (n : SDF) (u : PyVal) (angle : String) (m : SDF), n.rotated u angle = .ok m →
          m.glsl_struct_name = n.glsl_struct_name)
    ∧ (∀ (n : SDF) (k : String), (n.scaled k).glsl_struct_name = n.glsl_struct_name) := by
  refine ⟨?_, ?_, ?_, ?_, ?_⟩
  · intro cmds i h
    have hid : ((runBuild cmds).get ⟨i, h⟩).id = i :=
      foldl_applyCmd_invariant cmds [] (by intro j hj; simp at hj) i h
    exact ⟨hid, by rw [SDF.glsl_struct_name, hid]⟩
  · intro n tr m hm
    rw [SDF.glsl_struct_name, SDF.glsl_struct_name, translated_id n tr m hm]
  · intro n q m hm
    rw [SDF.glsl_struct_name, SDF.glsl_struct_name, rotated_quaternion_id n q m hm]
  · intro n u angle m hm
    rw [SDF.glsl_struct_name, SDF.glsl_struct_name, rotated_id n u angle m hm]
  · intro n k
    rfl

theorem c3_witness :
    ((runBuild [BuildCmd.sphere, BuildCmd.aabbox (.iter ["1", "1", "1"]),
        BuildCmd.union [0, 1]]).get ⟨2, by decide⟩).id = 2
    ∧ ((runBuild [BuildCmd.sphere, BuildCmd.aabbox (.iter ["1", "1", "1"]),
        BuildCmd.union [0, 1]]).get ⟨2, by decide⟩).glsl_struct_name = "SDF" ++ toString 2 :=
  c3_ids_and_names.1 [BuildCmd.sphere, BuildCmd.aabbox (.iter ["1", "1", "1"]),
    BuildCmd.union [0, 1]] 2 (by decide)

/-- C4: `declaration()` and `initialisation()` enumerate a node's
parameters in the same (lexicographically sorted) order, so the i-th
declared field name equals the name of the parameter whose value is
emitted i-th in the construction expression; both orders are pure
functions of the node, so repeated calls agree. -/
theorem c4_param_order (n : SDF) :
    n.declarationParamOrder = n.initialisationParamOrder
    ∧ ∀ (i : Nat) (h : i < n.declarationParamOrder.length),
        ∃ h₂ : i < n.initialisationParamOrder.length,
          n.declarationParamOrder.get ⟨i, h⟩ = n.initialisationParamOrder.get ⟨i, h₂⟩ :=
  ⟨rfl, fun _ h => ⟨h, rfl⟩⟩

theorem c4_witness :
    (mkCylinder [] "1" "2").2.declarationParamOrder
      = (mkCylinder [] "1" "2").2.initialisationParamOrder
    ∧ ∃ h₂ : 0 < (mkCylinder [] "1" "2").2.initialisationParamOrder.length,
        (mkCylinder [] "1" "2").2.declarationParamOrder.get ⟨0, by decide⟩
          = (mkCylinder [] "1" "2").2.initialisationParamOrder.get ⟨0, h₂⟩ :=
  ⟨(c4_param_order (mkCylinder [] "1" "2").2).1,
   (c4_param_order (mkCylinder [] "1" "2").2).2 0 (by decide)⟩

/-- C5: a `SmoothUnion(k, children...)` node with at least two children
stores `k` as one additional float parameter named `k`, and its `sdist`
is the nested `smin` fold in which every fold level is closed by the
same `, o.k)` — i.e. the single stored `k` is referenced at every level. -/
theorem c5_smooth_union (st : List SDF) (k : String) (args : List SDF)
    (h : 2 ≤ args.length) :
    dictGet (mkSmoothUnion st k args).2.parameters "k" = some (.lit "float" k)
    ∧ SDF.sdist (mkSmoothUnion st k args).2
        = "return " ++ nestedFoldExpr "smin" ", o.k)" (args.map SDF.id) ++ ";" := by
  constructor
  · show dictGet (dictInsert (childParams args) "k" (.lit "float" k)) "k" = _
    exact dictGet_dictInsert _ _ _
  · show foldSdist "smin" ", o.k)" (args.map SDF.id) = _
    exact foldSdist_eq_nested _ _ _ (by simpa using h)

theorem c5_witness :
    dictGet (mkSmoothUnion (runBuild [BuildCmd.sphere, BuildCmd.sphere]) "0.5"
        (runBuild [BuildCmd.sphere, BuildCmd.sphere])).2.parameters "k"
      = some (ParamVal.lit "float" "0.5")
    ∧ SDF.sdist (mkSmoothUnion (runBuild [BuildCmd.sphere, BuildCmd.sphere]) "0.5"
        (runBuild [BuildCmd.sphere, BuildCmd.sphere])).2
      = "return " ++ nestedFoldExpr "smin" ", o.k)"
          ((runBuild [BuildCmd.sphere, BuildCmd.sphere]).map SDF.id) ++ ";" :=
  c5_smooth_union (runBuild [BuildCmd.sphere, BuildCmd.sphere]) "0.5"
    (runBuild [BuildCmd.sphere, BuildCmd.sphere]) (by decide)

/-- C6: translation accumulates additively.  Starting from the default
translation `vec3(0, 0, 0)` (the rendered zero vector), translating by
`A` then by `B` stores the expression `((vec3(0, 0, 0) + A) + B)`, whose
componentwise meaning is `A + B`; and when the stored translation is
unset (`None`), the result is the delta alone. -/
theorem c6_translation_accumulates (n : SDF) (ea eb : Vec3Expr) :
    (n.translation = some (Vec3Expr.lit 0 0 0).render →
      (n.translated (.str ea.render) >>= fun m => m.translated (.str eb.render))
        = .ok { n with translation := some (Vec3Expr.render (.add (.add (.lit 0 0 0) ea) eb)) }
      ∧ Vec3Expr.denote (.add (.add (.lit 0 0 0) ea) eb)
          = v3add ea.denote eb.denote)
    ∧ (n.translation = none →
        n.translated (.str ea.render) = .ok { n with translation := some ea.render }) := by
  constructor
  · intro h0
    constructor
    · simp only [SDF.translated, h0, to_glsl_vec]
      norm_num [Except.map, Bind.bind, Except.bind, Vec3Expr.render, String.append_assoc]
    · simp [Vec3Expr.denote, v3add]
  · intro h0
    simp only [SDF.translated, h0, to_glsl_vec]
    norm_num [Except.map]

theorem c6_witness :
    ((mkSphere []).2.translated (.str (Vec3Expr.lit 1 2 3).render) >>= fun m =>
        m.translated (.str (Vec3Expr.lit 4 5 6).render))
      = .ok { id := 0, kind := SDFKind.sphere, parameters := [],
              translation :=
                some (Vec3Expr.render (.add (.add (.lit 0 0 0) (.lit 1 2 3)) (.lit 4 5 6))),
              rotation := some "vec4(0, 0, 0, 1)", scale := "1" }
    ∧ Vec3Expr.denote (.add (.add (.lit 0 0 0) (.lit 1 2 3)) (.lit 4 5 6))
        = v3add (Vec3Expr.denote (.lit 1 2 3)) (Vec3Expr.denote (.lit 4 5 6)) :=
  (c6_translation_accumulates (mkSphere []).2 (.lit 1 2 3) (.lit 4 5 6)).1 (by decide)

/-- C7: a second rotation overwrites the first.  After
`rotated_quaternion q1` then `rotated_quaternion q2` (both conversions
succeeding), the stored rotation is the conversion of `q2` alone, with
no trace of `q1`; and `rotated` delegates to `rotated_quaternion` with
the axis-angle quaternion expression string. -/
theorem c7_rotation_overwrites (n : SDF) (q1 q2 : PyVal) (v1 v2 : String)
    (h1 : to_glsl_vec q1 4 = .ok v1) (h2 : to_glsl_vec q2 4 = .ok v2) :
    (n.rotated_quaternion q1 >>= fun m => m.rotated_quaternion q2)
      = .ok { n with rotation := some v2 }
    ∧ ∀ (u : PyVal) (angle uv : String), to_glsl_vec u 3 = .ok uv →
        n.rotated u angle
          = n.rotated_quaternion
              (.str ("vec4(" ++ uv ++ " * cos((" ++ angle ++ ") / 2), sin((" ++ angle
                ++ ") / 2))")) := by
  constructor
  · simp [SDF.rotated_quaternion, h1, h2, Except.map, Bind.bind, Except.bind]
  · intro u angle uv hu
    simp [SDF.rotated, hu]

theorem c7_witness :
    ((mkSphere []).2.rotated_quaternion (.str "vec4(1, 0, 0, 0)") >>= fun m =>
        m.rotated_quaternion (.str "vec4(0, 1, 0, 0)"))
      = .ok { id := 0, kind := SDFKind.sphere, parameters := [],
              translation := some "vec3(0, 0, 0)",
              rotation := some "vec4(0, 1, 0, 0)", scale := "1" }
    ∧ (mkSphere []).2.rotated (.str "1, 0, 0") "3.14"
        = (mkSphere []).2.rotated_quaternion
            (.str ("vec4(" ++ "1, 0, 0" ++ " * cos((" ++ "3.14" ++ ") / 2), sin((" ++ "3.14"
              ++ ") / 2))")) :=
  ⟨(c7_rotation_overwrites (mkSphere []).2 (.str "vec4(1, 0, 0, 0)") (.str "vec4(0, 1, 0, 0)")
      "vec4(1, 0, 0, 0)" "vec4(0, 1, 0, 0)" rfl rfl).1,
   (c7_rotation_overwrites (mkSphere []).2 (.str "vec4(1, 0, 0, 0)") (.str "vec4(0, 1, 0, 0)")
      "vec4(1, 0, 0, 0)" "vec4(0, 1, 0, 0)" rfl rfl).2
      (.str "1, 0, 0") "3.14" "1, 0, 0" rfl⟩

/-- C8: `to_glsl_vec(vec, n)` raises a `ValueError` exactly when `n` is
outside `[2, 4]` or `vec` is neither a string nor an iterable; a string
with `n` in `[2, 4]` is returned unchanged.  (In the `Except` model a
raised error carries no output at all, so no output precedes a failure.) -/
theorem c8_to_glsl_vec_errors (v : PyVal) (n : Int) :
    ((∃ e, to_glsl_vec v n = .error e) ↔ (n < 2 ∨ 4 < n ∨ ∃ r, v = .other r))
    ∧ (∀ s, v = .str s → 2 ≤ n → n ≤ 4 → to_glsl_vec v n = .ok s) := by
  constructor
  · constructor
    · rintro ⟨e, he⟩
      by_cases hn : n < 2 ∨ n > 4
      · rcases hn with h | h
        · exact .inl h
        · exact .inr (.inl h)
      · cases v with
        | str s =>
            rw [to_glsl_vec.eq_def, if_neg hn] at he
            simp at he
        | iter l =>
            rw [to_glsl_vec.eq_def, if_neg hn] at he
            simp at he
        | other r => exact .inr (.inr ⟨r, rfl⟩)
    · intro h
      rcases h with h | h | ⟨r, rfl⟩
      · exact ⟨_, by rw [to_glsl_vec.eq_def, if_pos (Or.inl h)]⟩
      · exact ⟨_, by rw [to_glsl_vec.eq_def, if_pos (Or.inr h)]⟩
      · by_cases hn : n < 2 ∨ n > 4
        · exact ⟨_, by rw [to_glsl_vec.eq_def, if_pos hn]⟩
        · exact ⟨"Cannot convert \x27" ++ r ++ "\x27 to GLSL\x27s vec" ++ toString n,
            by rw [to_glsl_vec.eq_def, if_neg hn]⟩
  · intro s hs hlo hhi
    subst hs
    rw [to_glsl_vec.eq_def, if_neg (by omega)]

theorem c8_witness :
    to_glsl_vec (.str "x, y, z") 3 = .ok "x, y, z"
    ∧ (∃ e, to_glsl_vec (.other "5") 3 = .error e)
    ∧ (∃ e, to_glsl_vec (.str "a, b") 7 = .error e) :=
  ⟨(c8_to_glsl_vec_errors (.str "x, y, z") 3).2 "x, y, z" rfl (by decide) (by decide),
   (c8_to_glsl_vec_errors (.other "5") 3).1.mpr (.inr (.inr ⟨"5", rfl⟩)),
   (c8_to_glsl_vec_errors (.str "a, b") 7).1.mpr (.inr (.inl (by decide)))⟩

lemma parenTransformMerge (s : String) :
    ("(" : String) ++ ("Transform(" ++ s) = "(Transform(" ++ s := by
  rw [← String.append_assoc]
  exact congrArg (fun t => t ++ s) (by rfl)

lemma initialisation_no_params (reg : List SDF) (fuel : Nat) (n : SDF)
    (h : n.parameters = []) :
    SDF.initialisation reg (fuel + 1) n
      = n.glsl_struct_name ++ "(Transform(" ++ optStr n.rotation ++ ", "
        ++ optStr n.translation ++ ", " ++ n.scale ++ "))" := by
  rw [SDF.initialisation]
  simp only [SDF.initialisationParamOrder, h, List.map_nil]
  simp only [pySorted, List.foldr_nil, List.map_nil, strJoin_nil]
  simp only [String.append_assoc, String.append_empty, String.empty_append,
    parenTransformMerge]

/-- C9: when the scene root is unset, `process()` does not fail: it
resolves the root to a freshly constructed `Emptiness` node (appended to
the registry with the next id), the final statement returns that node's
distance via its initialisation expression, and that node's distance
body is the infinite sentinel `return INF;`. -/
theorem c9_default_root (st : List SDF) :
    (Scene.processCore st none).2.1.kind = SDFKind.emptiness
    ∧ (Scene.processCore st none).2.1.id = st.length
    ∧ (Scene.processCore st none).1 = st ++ [(Scene.processCore st none).2.1]
    ∧ (Scene.processCore st none).2.2.2
        = "return sdist(p, "
          ++ SDF.initialisation (Scene.processCore st none).1
              ((Scene.processCore st none).1.length + 1) (Scene.processCore st none).2.1
          ++ ");"
    ∧ SDF.sdist (Scene.processCore st none).2.1 = "return INF;"
    ∧ SDF.initialisation (Scene.processCore st none).1
        ((Scene.processCore st none).1.length + 1) (Scene.processCore st none).2.1
      = (Scene.processCore st none).2.1.glsl_struct_name
        ++ "(Transform(vec4(0, 0, 0, 1), vec3(0, 0, 0), 1))" := by
  refine ⟨rfl, rfl, rfl, rfl, rfl, ?_⟩
  rw [initialisation_no_params _ _ _ rfl]
  simp only [String.append_assoc]
  exact congrArg (fun t => (Scene.processCore st none).2.1.glsl_struct_name ++ t) (by rfl)

/-- C10: for every dimension `n` in `[2, 4]`, `to_glsl_vec` applied to
an empty non-string iterable raises no error and returns the malformed
text `vec)`: the unconditional trim of the two trailing characters
removes the dimension digit and the opening parenthesis. -/
theorem c10_empty_iterable (n : Int) (hlo : 2 ≤ n) (hhi : n ≤ 4) :
    to_glsl_vec (.iter []) n = .ok "vec)" := by
  have hc : n = 2 ∨ n = 3 ∨ n = 4 := by omega
  rcases hc with rfl | rfl | rfl <;> rfl

theorem c10_witness : to_glsl_vec (.iter []) 2 = .ok "vec)" :=
  c10_empty_iterable 2 (by decide) (by decide)
